import Mathlib

/-!
Shallow embedding of the `geospatial` library (file `geospatial/geospatial.py`):
the distance model (`Unit`, `Radius`, `EarthsRadius`), the great-circle
distance function (`haversine`), the `Node` entity and the
`InMemoryGeospatialRepository` (a Python dict from identifiers to nodes).

Python floats are modelled by real numbers, Python's `math` functions by the
corresponding real functions (`math.atan2` is spelled out as the standard
piecewise definition `atan2` below).  Python dicts are modelled by association
lists with dict semantics: assignment replaces the entry for an existing key in
place and appends otherwise, `pop` removes the entry, `len` counts entries.
Dynamically typed identifiers (ints or strings in this code base) are modelled
by the sum type `PyVal`, whose `truthy` function mirrors Python truthiness
(`0`, `""` and `None` — the latter via `Option.none` — are falsy).
-/

namespace Geospatial

/-- A Python value usable as a node identifier in this code base: an int
(minted identifiers are `len(nodes) + 1`) or a string. -/
inductive PyVal where
  | int : Int → PyVal
  | str : String → PyVal
deriving DecidableEq, Repr

/-- Python truthiness of an identifier value: `0` and `""` are falsy. -/
def PyVal.truthy : PyVal → Bool
  | .int n => n != 0
  | .str s => s != ""

/-- Coordinates: a (latitude, longitude) pair of reals, in degrees. -/
def Coord : Type := ℝ × ℝ

/-- The `Unit` enumeration of `geospatial.py` (closed: KILOMETERS, METERS,
MILES). -/
inductive Unit where
  | KILOMETERS
  | METERS
  | MILES
deriving DecidableEq, Repr

/-- The `Radius` class: a scalar distance stored canonically in meters. -/
structure Radius where
  meters : ℝ

/-- `Radius.to_meters`. -/
def Radius.to_meters (r : Radius) : ℝ := r.meters

/-- `Radius.to_kilometers`. -/
noncomputable def Radius.to_kilometers (r : Radius) : ℝ := r.meters / 1000

/-- `Radius.to_miles`. -/
noncomputable def Radius.to_miles (r : Radius) : ℝ := r.meters / 1609.344

/-- The three valid branches of `Radius.convert_to`, as a total function on
the closed enumeration. -/
noncomputable def Radius.convert_toUnit (r : Radius) (unit : Unit) : ℝ :=
  match unit with
  | .KILOMETERS => r.to_kilometers
  | .MILES => r.to_miles
  | .METERS => r.to_meters

/-- `Radius.convert_to(unit)`: Python accepts any value here, including
`None`; anything outside the three enumeration members raises `ValueError`.
The argument is modelled as `Option Unit` (with `none` for any invalid or
absent unit) and the raise as `Except.error`. -/
noncomputable def Radius.convert_to (r : Radius) (unit : Option Unit) : Except String ℝ :=
  match unit with
  | some u => .ok (r.convert_toUnit u)
  | none => .error "Expected unit to be one of Unit, actual value is invalid."

/-- The `EarthsRadius.RADIUS` enum member: `Radius(6371000)`. -/
def EarthsRadius.RADIUS : Radius := ⟨6371000⟩

/-- `EarthsRadius.convert_to(unit)` restricted to the valid units (the only
way `haversine` calls it). -/
noncomputable def EarthsRadius.convert_to (unit : Unit) : ℝ :=
  EarthsRadius.RADIUS.convert_toUnit unit

/-- `math.radians`: degrees to radians. -/
noncomputable def radians (d : ℝ) : ℝ := d * (Real.pi / 180)

/-- `math.atan2 y x`: the angle of the point `(x, y)`, in `(-π, π]`, by the
standard piecewise definition. -/
noncomputable def atan2 (y x : ℝ) : ℝ :=
  if 0 < x then Real.arctan (y / x)
  else if x < 0 then
    (if 0 ≤ y then Real.arctan (y / x) + Real.pi
     else Real.arctan (y / x) - Real.pi)
  else
    (if 0 < y then Real.pi / 2
     else if y < 0 then -(Real.pi / 2)
     else 0)

/-- The `haversine` function of `geospatial.py`, line by line. -/
noncomputable def haversine (coordinates other : Coord)
    (unit : Unit := .METERS) : ℝ :=
  let lat1 := coordinates.1
  let lon1 := coordinates.2
  let lat2 := other.1
  let lon2 := other.2
  let phi_a := radians lat1
  let phi_b := radians lat2
  let delta_latitudes := radians (lat2 - lat1)
  let delta_longitudes := radians (lon2 - lon1)
  let a := (Real.sin (delta_latitudes / 2)) ^ 2 +
    Real.cos phi_a * Real.cos phi_b * (Real.sin (delta_longitudes / 2)) ^ 2
  let c := 2 * atan2 (Real.sqrt a) (Real.sqrt (1 - a))
  EarthsRadius.convert_to unit * c

/-- The `Node` entity: nullable identifier, coordinates, nullable opaque
value (type parameter `α`). -/
structure Node (α : Type) where
  node_id : Option PyVal
  coordinates : Coord
  value : Option α

/-- `Node.__eq__`: two nodes compare equal exactly when their values do;
identifier and coordinates play no role. -/
def Node.beq {α : Type} [DecidableEq α] (n other : Node α) : Bool :=
  decide (n.value = other.value)

/-- Python dict assignment `d[k] = v` on an association list: replace the
entry of an existing key in place, append a new entry otherwise. -/
def dictInsert {β : Type} (l : List (PyVal × β)) (k : PyVal) (v : β) :
    List (PyVal × β) :=
  match l with
  | [] => [(k, v)]
  | (k', v') :: t => if k' = k then (k, v) :: t else (k', v') :: dictInsert t k v

/-- Python dict lookup `d[k]` / `k in d`, as an `Option`. -/
def dictLookup {β : Type} (l : List (PyVal × β)) (k : PyVal) : Option β :=
  match l with
  | [] => none
  | (k', v') :: t => if k' = k then some v' else dictLookup t k

/-- Python dict `d.pop(k)`: remove the entry of `k` (first occurrence; keys
are unique in reachable states). -/
def dictRemove {β : Type} (l : List (PyVal × β)) (k : PyVal) :
    List (PyVal × β) :=
  match l with
  | [] => []
  | (k', v') :: t => if k' = k then t else (k', v') :: dictRemove t k

/-- The `InMemoryGeospatialRepository`: its `self.nodes` dict. -/
structure InMemoryGeospatialRepository (α : Type) where
  nodes : List (PyVal × Node α)

namespace InMemoryGeospatialRepository

variable {α : Type}

/-- `__init__`: the empty repository. -/
def empty : InMemoryGeospatialRepository α := ⟨[]⟩

/-- Well-formedness invariant of a Python dict model: keys are unique.  It
holds in every state reachable from `empty` through the repository's
operations. -/
def WF (st : InMemoryGeospatialRepository α) : Prop :=
  (st.nodes.map Prod.fst).Nodup

/-- `search(coordinates, radius)`: keep every stored node whose haversine
distance from `coordinates` in meters is at most `radius.to_meters()`. -/
noncomputable def search (st : InMemoryGeospatialRepository α)
    (coordinates : Coord) (radius : Radius) : List (Node α) :=
  (st.nodes.filter fun kv =>
    @decide (haversine coordinates kv.2.coordinates Unit.METERS ≤
      radius.to_meters) (Classical.propDecidable _)).map Prod.snd

/-- `upsert(node)`: if `node.node_id` is truthy use it, otherwise mint
`len(self.nodes) + 1`; store a fresh node under that identifier and return
the new state together with the persisted node. -/
def upsert (st : InMemoryGeospatialRepository α) (node : Node α) :
    InMemoryGeospatialRepository α × Node α :=
  let node_id : PyVal :=
    match node.node_id with
    | some i => if i.truthy then i else .int (st.nodes.length + 1)
    | none => .int (st.nodes.length + 1)
  let n : Node α := ⟨some node_id, node.coordinates, node.value⟩
  (⟨dictInsert st.nodes node_id n⟩, n)

/-- `get(node_id)`: the stored node, or `None`. -/
def get (st : InMemoryGeospatialRepository α) (node_id : PyVal) :
    Option (Node α) :=
  dictLookup st.nodes node_id

/-- `contains(node_id)`: `bool(self.get(node_id))` — a `Node` object is
always truthy, `None` is falsy. -/
def contains (st : InMemoryGeospatialRepository α) (node_id : PyVal) : Bool :=
  (st.get node_id).isSome

/-- `delete(node_id)`: pop the entry and return `True` (a popped `Node` is
always truthy) or catch the `KeyError` and return `False`, with the
resulting state. -/
def delete (st : InMemoryGeospatialRepository α) (node_id : PyVal) :
    Bool × InMemoryGeospatialRepository α :=
  match dictLookup st.nodes node_id with
  | some _ => (true, ⟨dictRemove st.nodes node_id⟩)
  | none => (false, st)

/-- `__len__`: the number of stored nodes. -/
def size (st : InMemoryGeospatialRepository α) : Nat :=
  st.nodes.length

end InMemoryGeospatialRepository

/-- The Earth-radius factor exactly as the specification words it: the
6,371,000-meter constant expressed in the requested unit, with 1 km = 1000 m
and 1 mile = 1609.344 m. -/
noncomputable def EarthRadiusSpec (unit : Unit) : ℝ :=
  match unit with
  | .METERS => 6371000
  | .KILOMETERS => 6371000 / 1000
  | .MILES => 6371000 / 1609.344

/-- The Haversine algorithm exactly as the specification words it: convert
`lat1`, `lat2`, `(lat2 − lat1)`, `(lon2 − lon1)` from degrees to radians,
`a = sin²(Δlat/2) + cos(lat1)·cos(lat2)·sin²(Δlon/2)`,
`c = 2·atan2(√a, √(1−a))`, result `= EarthRadius.convert_to(unit) × c`.
This definition follows the spec's words; `haversine` above follows the
code.  Claim C2 compares the two. -/
noncomputable def distance_spec (pointA pointB : Coord) (unit : Unit) : ℝ :=
  let lat1 := radians pointA.1
  let lat2 := radians pointB.1
  let dlat := radians (pointB.1 - pointA.1)
  let dlon := radians (pointB.2 - pointA.2)
  let a := Real.sin (dlat / 2) ^ 2 +
    Real.cos lat1 * Real.cos lat2 * Real.sin (dlon / 2) ^ 2
  let c := 2 * atan2 (Real.sqrt a) (Real.sqrt (1 - a))
  EarthRadiusSpec unit * c

/-- A transient node (no identifier) for the concrete scenarios below. -/
def mkNode (v : String) : Node String := ⟨none, ((0 : ℝ), (0 : ℝ)), some v⟩

/-- Scenario state for the identifier-minting defect: three transient nodes
upserted into the empty repository (minting identifiers 1, 2, 3). -/
def scenarioSt3 : InMemoryGeospatialRepository String :=
  (((InMemoryGeospatialRepository.empty.upsert (mkNode "a")).1.upsert
    (mkNode "b")).1.upsert (mkNode "c")).1

/-- Scenario state after deleting identifier 2 from `scenarioSt3`: two nodes
remain, stored under identifiers 1 and 3. -/
def scenarioSt4 : InMemoryGeospatialRepository String :=
  (scenarioSt3.delete (.int 2)).2

/-- A one-node repository (node "me" at the origin, identifier 1) for the
search counterexample and witnesses. -/
def oneNodeSt : InMemoryGeospatialRepository String :=
  ⟨[(.int 1, ⟨some (.int 1), ((0 : ℝ), (0 : ℝ)), some "me"⟩)]⟩

/-! ## Supporting lemmas -/

theorem arctan_nonneg_of_nonneg {t : ℝ} (h : 0 ≤ t) : 0 ≤ Real.arctan t := by
  have hm := Real.arctan_strictMono.monotone h
  rwa [Real.arctan_zero] at hm

theorem atan2_zero_one : atan2 0 1 = 0 := by
  unfold atan2
  rw [if_pos one_pos]
  simp

theorem atan2_nonneg {y x : ℝ} (hy : 0 ≤ y) : 0 ≤ atan2 y x := by
  unfold atan2
  split_ifs with h1 h2 h3 h4
  · exact arctan_nonneg_of_nonneg (div_nonneg hy (le_of_lt h1))
  · have ha := Real.neg_pi_div_two_lt_arctan (y / x)
    have hp := Real.pi_pos
    linarith
  · have hp := Real.pi_pos
    linarith
  · linarith
  · linarith

theorem EarthsRadius_convert_pos (u : Unit) : 0 < EarthsRadius.convert_to u := by
  cases u <;>
    norm_num [EarthsRadius.convert_to, EarthsRadius.RADIUS, Radius.convert_toUnit,
      Radius.to_meters, Radius.to_kilometers, Radius.to_miles]

theorem haversine_self (A : Coord) (u : Unit) : haversine A A u = 0 := by
  simp [haversine, radians, sub_self, atan2_zero_one]

theorem haversine_nonneg (p q : Coord) (u : Unit) : 0 ≤ haversine p q u := by
  unfold haversine
  refine mul_nonneg (le_of_lt (EarthsRadius_convert_pos u)) ?_
  exact mul_nonneg (by norm_num) (atan2_nonneg (Real.sqrt_nonneg _))

theorem dictLookup_eq_none_of_not_mem {β : Type} {l : List (PyVal × β)}
    {k : PyVal} (h : k ∉ l.map Prod.fst) : dictLookup l k = none := by
  induction l with
  | nil => rfl
  | cons hd t ih =>
    obtain ⟨k', v'⟩ := hd
    simp only [List.map_cons, List.mem_cons] at h
    push_neg at h
    simp only [dictLookup]
    rw [if_neg (fun hh => h.1 hh.symm)]
    exact ih h.2

theorem dictLookup_insert_self {β : Type} (l : List (PyVal × β)) (k : PyVal)
    (v : β) : dictLookup (dictInsert l k v) k = some v := by
  induction l with
  | nil => simp [dictInsert, dictLookup]
  | cons hd t ih =>
    obtain ⟨k', v'⟩ := hd
    by_cases h : k' = k
    · simp [dictInsert, dictLookup, h]
    · simp [dictInsert, dictLookup, h, ih]

theorem dictInsert_idem {β : Type} (l : List (PyVal × β)) (k : PyVal) (v : β) :
    dictInsert (dictInsert l k v) k v = dictInsert l k v := by
  induction l with
  | nil => simp [dictInsert]
  | cons hd t ih =>
    obtain ⟨k', v'⟩ := hd
    by_cases h : k' = k
    · simp [dictInsert, h]
    · simp [dictInsert, h, ih]

theorem dictLookup_remove_self {β : Type} {l : List (PyVal × β)} {k : PyVal}
    (h : (l.map Prod.fst).Nodup) : dictLookup (dictRemove l k) k = none := by
  induction l with
  | nil => rfl
  | cons hd t ih =>
    obtain ⟨k', v'⟩ := hd
    simp only [List.map_cons, List.nodup_cons] at h
    by_cases hk : k' = k
    · subst hk
      simp only [dictRemove, if_pos rfl]
      exact dictLookup_eq_none_of_not_mem h.1
    · simp only [dictRemove, if_neg hk, dictLookup]
      exact ih h.2

theorem mem_keys_dictInsert {β : Type} {l : List (PyVal × β)} {k a : PyVal}
    {v : β} :
    a ∈ (dictInsert l k v).map Prod.fst ↔ a ∈ l.map Prod.fst ∨ a = k := by
  induction l with
  | nil => simp [dictInsert]
  | cons hd t ih =>
    obtain ⟨k', v'⟩ := hd
    by_cases h : k' = k
    · subst h
      simp [dictInsert]
      tauto
    · simp only [dictInsert, if_neg h, List.map_cons, List.mem_cons, ih]
      tauto

theorem dictInsert_nodup {β : Type} {l : List (PyVal × β)} {k : PyVal} {v : β}
    (h : (l.map Prod.fst).Nodup) :
    ((dictInsert l k v).map Prod.fst).Nodup := by
  induction l with
  | nil => simp [dictInsert]
  | cons hd t ih =>
    obtain ⟨k', v'⟩ := hd
    simp only [List.map_cons, List.nodup_cons] at h
    by_cases hk : k' = k
    · subst hk
      have he : dictInsert ((k', v') :: t) k' v = (k', v) :: t := by
        simp [dictInsert]
      rw [he]
      simp only [List.map_cons, List.nodup_cons]
      exact h
    · simp only [dictInsert, if_neg hk, List.map_cons, List.nodup_cons,
        mem_keys_dictInsert]
      exact ⟨fun hc => hc.elim h.1 hk, ih h.2⟩

theorem dictRemove_sublist {β : Type} (l : List (PyVal × β)) (k : PyVal) :
    List.Sublist (dictRemove l k) l := by
  induction l with
  | nil => simp [dictRemove]
  | cons hd t ih =>
    obtain ⟨k', v'⟩ := hd
    by_cases h : k' = k
    · simp only [dictRemove, if_pos h]
      exact List.sublist_cons_self _ _
    · simp only [dictRemove, if_neg h]
      exact ih.cons₂ _

namespace InMemoryGeospatialRepository

variable {α : Type}

theorem WF_empty : (empty : InMemoryGeospatialRepository α).WF := by
  simp [WF, empty]

theorem WF_upsert (st : InMemoryGeospatialRepository α) (node : Node α)
    (h : st.WF) : (st.upsert node).1.WF :=
  dictInsert_nodup h

theorem WF_delete (st : InMemoryGeospatialRepository α) (i : PyVal)
    (h : st.WF) : (st.delete i).2.WF := by
  unfold delete
  cases hl : dictLookup st.nodes i with
  | none => exact h
  | some nd =>
    exact ((dictRemove_sublist st.nodes i).map Prod.fst).nodup h


/-- Membership characterization of `search`: exactly the stored nodes within
the radius, in meters. -/
theorem mem_search_iff (st : InMemoryGeospatialRepository α) (c : Coord)
    (r : Radius) (n : Node α) :
    n ∈ st.search c r ↔
      (∃ i, (i, n) ∈ st.nodes) ∧
        haversine c n.coordinates Unit.METERS ≤ r.to_meters := by
  unfold search
  simp only [List.mem_map, List.mem_filter, decide_eq_true_eq]
  constructor
  · rintro ⟨⟨i, m⟩, ⟨hmem, hc⟩, rfl⟩
    exact ⟨⟨i, hmem⟩, hc⟩
  · rintro ⟨⟨i, hmem⟩, hc⟩
    exact ⟨(i, n), ⟨hmem, hc⟩, rfl⟩

end InMemoryGeospatialRepository

/-! ## Claims -/

/-- C1: for every repository state, center and radius, `search` returns
exactly the stored nodes whose haversine distance from the center in meters
is at most `radius.to_meters()`. -/
theorem search_returns_exactly_nodes_within_radius {α : Type}
    (st : InMemoryGeospatialRepository α) (center : Coord) (radius : Radius)
    (n : Node α) :
    n ∈ st.search center radius ↔
      (∃ i, (i, n) ∈ st.nodes) ∧
        haversine center n.coordinates Unit.METERS ≤ radius.to_meters :=
  st.mem_search_iff center radius n

/-- C2: for all coordinate pairs and every valid unit, `haversine` computes
exactly the Haversine formula as the specification words it
(`distance_spec`), with the 6,371,000-meter Earth radius constant. -/
theorem haversine_matches_spec_formula (p q : Coord) (u : Unit) :
    haversine p q u = distance_spec p q u := by
  cases u <;>
    simp [haversine, distance_spec, EarthsRadius.convert_to,
      EarthsRadius.RADIUS, Radius.convert_toUnit, Radius.to_meters,
      Radius.to_kilometers, Radius.to_miles, EarthRadiusSpec]

/-- C3 (code bug): after upserting three transient nodes (minting
identifiers 1, 2, 3) and deleting identifier 2, upserting a fourth transient
node mints identifier `len + 1 = 3`, which is already stored — the new node
overwrites the node under identifier 3 and the repository size stays 2
instead of growing to 3.  The claim's unique-identifier guarantee fails
after deletions. -/
theorem upsert_minted_id_collides_after_delete :
    (scenarioSt4.upsert (mkNode "d")).2.node_id = some (.int 3) ∧
      PyVal.int 3 ∈ scenarioSt4.nodes.map Prod.fst ∧
      (scenarioSt4.upsert (mkNode "d")).1.size = 2 ∧
      scenarioSt4.size = 2 := by
  refine ⟨rfl, ?_, rfl, rfl⟩
  decide

/-- C4 (amended): for every repository state and center, a radius whose
meter value is strictly negative yields an empty `search` result (the
original claim's "non-positive" fails at radius 0 with a node at distance
exactly 0, see the counterexample). -/
theorem search_negative_radius_empty {α : Type}
    (st : InMemoryGeospatialRepository α) (center : Coord) (radius : Radius)
    (h : radius.meters < 0) : st.search center radius = [] := by
  unfold InMemoryGeospatialRepository.search
  rw [List.map_eq_nil_iff, List.filter_eq_nil_iff]
  intro kv _
  simp only [decide_eq_true_eq]
  have hnn := haversine_nonneg center kv.2.coordinates Unit.METERS
  rw [Radius.to_meters]
  intro hle
  linarith

/-- Witness for C4's amended theorem at a concrete one-node state and
radius −100. -/
theorem search_negative_radius_empty_witness :
    oneNodeSt.search ((0 : ℝ), (0 : ℝ)) ⟨-100⟩ = [] :=
  search_negative_radius_empty oneNodeSt ((0 : ℝ), (0 : ℝ)) ⟨-100⟩
    (by norm_num)

/-- C4 counterexample: with a node stored at the center itself, a radius of
exactly 0 meters (non-positive) does NOT yield an empty sequence — the node
at distance 0 satisfies `0 ≤ 0` and is returned. -/
theorem search_zero_radius_not_empty :
    oneNodeSt.search ((0 : ℝ), (0 : ℝ)) ⟨0⟩ ≠ [] := by
  have hmem : (⟨some (.int 1), ((0 : ℝ), (0 : ℝ)), some "me"⟩ : Node String) ∈
      oneNodeSt.search ((0 : ℝ), (0 : ℝ)) ⟨0⟩ := by
    rw [oneNodeSt.mem_search_iff]
    refine ⟨⟨.int 1, ?_⟩, ?_⟩
    · simp [oneNodeSt]
    · rw [haversine_self]
      norm_num [Radius.to_meters]
  exact List.ne_nil_of_mem hmem

/-- C5: `convert_to` returns the meter value for METERS, meters/1000 for
KILOMETERS, meters/1609.344 for MILES, and errors exactly when the unit is
not one of the three enumerated values (modelled by `none`). -/
theorem convert_to_conversions_and_invalid_unit (m : ℝ) :
    (Radius.mk m).convert_to (some .METERS) = .ok m ∧
      (Radius.mk m).convert_to (some .KILOMETERS) = .ok (m / 1000) ∧
      (Radius.mk m).convert_to (some .MILES) = .ok (m / 1609.344) ∧
      ∀ u : Option Unit,
        (∃ e, (Radius.mk m).convert_to u = .error e) ↔ u = none := by
  refine ⟨rfl, rfl, rfl, ?_⟩
  intro u
  cases u with
  | none => simp [Radius.convert_to]
  | some u => simp [Radius.convert_to]

/-- C6: two nodes compare equal exactly when their values are equal; the
identifier and coordinates play no role in `Node.__eq__`. -/
theorem node_eq_iff_value_eq {α : Type} [DecidableEq α] (n m : Node α) :
    n.beq m = true ↔ n.value = m.value := by
  simp [Node.beq]

/-- Witness for C6 at two concrete nodes with equal values but different
identifiers and coordinates. -/
theorem node_eq_iff_value_eq_witness :
    (Node.beq (⟨some (.int 1), ((0 : ℝ), (0 : ℝ)), some "x"⟩ : Node String)
        ⟨some (.int 2), ((1 : ℝ), (1 : ℝ)), some "x"⟩ = true) ↔
      (some "x" : Option String) = some "x" :=
  node_eq_iff_value_eq _ _

/-- C7: `delete` returns true exactly when a node is stored under the
identifier, removes it (subsequent `get` and `contains` report absence), and
on a miss returns false leaving the state unchanged. -/
theorem delete_true_iff_present_and_removes {α : Type}
    (st : InMemoryGeospatialRepository α) (i : PyVal) (hwf : st.WF) :
    ((st.delete i).1 = st.contains i) ∧
      ((st.delete i).2.get i = none) ∧
      ((st.delete i).2.contains i = false) ∧
      (st.contains i = false →
        (st.delete i).1 = false ∧ (st.delete i).2 = st) := by
  unfold InMemoryGeospatialRepository.delete
    InMemoryGeospatialRepository.contains InMemoryGeospatialRepository.get
  cases h : dictLookup st.nodes i with
  | none => simp [h]
  | some nd => simp [h, dictLookup_remove_self hwf]

/-- Witness for C7 at a concrete one-node repository and its stored
identifier. -/
theorem delete_true_iff_present_and_removes_witness :
    ((oneNodeSt.delete (.int 1)).1 = oneNodeSt.contains (.int 1)) ∧
      ((oneNodeSt.delete (.int 1)).2.get (.int 1) = none) ∧
      ((oneNodeSt.delete (.int 1)).2.contains (.int 1) = false) ∧
      (oneNodeSt.contains (.int 1) = false →
        (oneNodeSt.delete (.int 1)).1 = false ∧
          (oneNodeSt.delete (.int 1)).2 = oneNodeSt) :=
  delete_true_iff_present_and_removes oneNodeSt (.int 1)
    (by unfold InMemoryGeospatialRepository.WF oneNodeSt; decide)

/-- C8: upserting the same node (with a truthy identifier) twice yields
exactly the state and result of upserting it once. -/
theorem upsert_idempotent {α : Type} (st : InMemoryGeospatialRepository α)
    (k : PyVal) (coords : Coord) (v : Option α) (hk : k.truthy = true) :
    (st.upsert ⟨some k, coords, v⟩).1.upsert ⟨some k, coords, v⟩ =
      st.upsert ⟨some k, coords, v⟩ := by
  simp only [InMemoryGeospatialRepository.upsert, hk, if_true]
  rw [dictInsert_idem]

/-- Witness for C8 at the empty repository and identifier 5. -/
theorem upsert_idempotent_witness :
    ((InMemoryGeospatialRepository.empty.upsert
        (⟨some (.int 5), ((0 : ℝ), (0 : ℝ)), some "v"⟩ : Node String)).1.upsert
      ⟨some (.int 5), ((0 : ℝ), (0 : ℝ)), some "v"⟩) =
      InMemoryGeospatialRepository.empty.upsert
        ⟨some (.int 5), ((0 : ℝ), (0 : ℝ)), some "v"⟩ :=
  upsert_idempotent _ _ _ _ (by decide)

/-- C9: the haversine distance from any coordinate pair to itself is 0, in
every unit. -/
theorem haversine_same_point_zero (A : Coord) (u : Unit) :
    haversine A A u = 0 :=
  haversine_self A u

/-- C10: upserting a node whose identifier is present but falsy (such as the
integer 0 or the empty string) behaves exactly like upserting a node with no
identifier: a fresh identifier `len(nodes) + 1` is minted and used. -/
theorem upsert_falsy_id_mints_fresh {α : Type}
    (st : InMemoryGeospatialRepository α) (i : PyVal) (coords : Coord)
    (v : Option α) (hi : i.truthy = false) :
    st.upsert ⟨some i, coords, v⟩ = st.upsert ⟨none, coords, v⟩ ∧
      (st.upsert ⟨some i, coords, v⟩).2.node_id =
        some (.int (st.nodes.length + 1)) := by
  simp [InMemoryGeospatialRepository.upsert, hi]

/-- Witness for C10 at the empty repository and the falsy identifier 0. -/
theorem upsert_falsy_id_mints_fresh_witness :
    (InMemoryGeospatialRepository.empty.upsert
        (⟨some (.int 0), ((0 : ℝ), (0 : ℝ)), some "x"⟩ : Node String) =
      InMemoryGeospatialRepository.empty.upsert ⟨none, ((0 : ℝ), (0 : ℝ)), some "x"⟩) ∧
      (InMemoryGeospatialRepository.empty.upsert
          (⟨some (.int 0), ((0 : ℝ), (0 : ℝ)), some "x"⟩ : Node String)).2.node_id =
        some (.int ((InMemoryGeospatialRepository.empty :
          InMemoryGeospatialRepository String).nodes.length + 1)) :=
  upsert_falsy_id_mints_fresh _ _ _ _ (by decide)

end Geospatial
